import Mathlib

/-!
Verification of the FusionAuth JWT authentication layer of the
Backend_API_Server Django application, covering
`auth_utils.validate_fusionauth_jwt`, the middleware
`FusionAuthJWTMiddleware.process_view` and decorator `jwt_required`
(`jwt_middleware.py`), and the `login_view` / `validate_token_view`
endpoints (`views.py`).
-/

/-- JSON values, as produced by decoding a JWT payload or a request body
(model of the Python values `dict` / `list` / `str` / `int` / `bool` / `None`
that `json.loads` and `jose.jwt.decode` return). -/
inductive Json where
  | null : Json
  | bool (b : Bool) : Json
  | num (n : Int) : Json
  | str (s : String) : Json
  | arr (elems : List Json) : Json
  | obj (fields : List (String × Json)) : Json
deriving Repr

/-- A decoded claim set: the JWT payload as a Python dict, modelled as an
association list (JSON objects have no duplicate keys after `json.loads`). -/
abbrev ClaimSet := List (String × Json)

/-- Dict lookup: `claims.get(k)` / `k in claims` on a decoded payload. -/
def lookupClaim (claims : ClaimSet) (k : String) : Option Json :=
  (claims.find? (fun p => p.1 = k)).map Prod.snd

/-- Abstract view of a compact-serialized JWT string after parsing:
`wellFormed` is true when the string splits into three base64url segments
with a JSON-object payload and an RS256 header that `jose.jws.verify`
accepts structurally; `sigKey` abstracts the signature (verification with
public key `k` succeeds exactly when `k = sigKey`, i.e. `sigKey` is the
PEM key whose private counterpart signed the token); `claims` is the
decoded payload. -/
structure Token where
  wellFormed : Bool
  sigKey : String
  claims : ClaimSet

/-- Errors raised by the external `python-jose` library that the repository
code distinguishes: `ExpiredSignatureError` (a subclass of `JWTError`,
caught first in `auth_utils.py`) versus every other `JWTError`, carrying
`str(e)`. -/
inductive JoseError where
  | expiredSignature (msg : String) : JoseError
  | jwtError (msg : String) : JoseError
deriving Repr, DecidableEq

/-- Python `int(v)` on a JSON claim value as used by python-jose's claim
validators: succeeds on ints and bools, on strings with integer content,
and fails (`ValueError`) otherwise. -/
def intOf : Json → Option Int
  | .num n => some n
  | .bool b => some (if b then 1 else 0)
  | .str s => s.toInt?
  | _ => none

/-- Model of python-jose `_validate_iat`: an `iat` claim, when present,
must be convertible to an integer; absence is accepted. -/
def joseValidateIat (claims : ClaimSet) : Option JoseError :=
  match lookupClaim claims "iat" with
  | none => none
  | some v =>
    if (intOf v).isSome then none
    else some (.jwtError "Issued At claim (iat) must be an integer.")

/-- Model of python-jose `_validate_nbf` with the default leeway of 0. -/
def joseValidateNbf (claims : ClaimSet) (now : Int) : Option JoseError :=
  match lookupClaim claims "nbf" with
  | none => none
  | some v =>
    match intOf v with
    | none => some (.jwtError "Not Before claim (nbf) must be an integer.")
    | some nbf =>
      if nbf > now then some (.jwtError "The token is not yet valid (nbf)")
      else none

/-- Model of python-jose `_validate_exp` with the default leeway of 0: a
missing `exp` is accepted; an `exp` strictly before `now` raises
`ExpiredSignatureError`. -/
def joseValidateExp (claims : ClaimSet) (now : Int) : Option JoseError :=
  match lookupClaim claims "exp" with
  | none => none
  | some v =>
    match intOf v with
    | none => some (.jwtError "Expiration Signature claim (exp) must be an integer.")
    | some e =>
      if e < now then some (.expiredSignature "Signature has expired.")
      else none

/-- True exactly on JSON strings (`isinstance(v, str)`). -/
def Json.isStr : Json → Bool
  | .str _ => true
  | _ => false

/-- Model of python-jose `_validate_aud`: a missing `aud` claim is accepted
silently; a string claim is wrapped into a one-element list; the configured
audience must be a member of the resulting list of strings. -/
def joseValidateAud (claims : ClaimSet) (audience : String) : Option JoseError :=
  match lookupClaim claims "aud" with
  | none => none
  | some (.str s) =>
    if s = audience then none else some (.jwtError "Invalid audience")
  | some (.arr l) =>
    if l.all Json.isStr then
      if l.any (fun j => match j with | .str t => t == audience | _ => false) then none
      else some (.jwtError "Invalid audience")
    else some (.jwtError "Invalid claim format in token")
  | some _ => some (.jwtError "Invalid claim format in token")

/-- Model of python-jose `_validate_iss`: `claims.get("iss")` must equal the
configured issuer string (a missing or non-string claim never equals it). -/
def joseValidateIss (claims : ClaimSet) (issuer : String) : Option JoseError :=
  match lookupClaim claims "iss" with
  | some (.str s) => if s = issuer then none else some (.jwtError "Invalid issuer")
  | _ => some (.jwtError "Invalid issuer")

/-- Model of python-jose `_validate_sub` with no expected subject: a `sub`
claim, when present, must be a string. -/
def joseValidateSub (claims : ClaimSet) : Option JoseError :=
  match lookupClaim claims "sub" with
  | none => none
  | some (.str _) => none
  | some _ => some (.jwtError "Subject must be a string.")

/-- Model of python-jose `_validate_jti`: a `jti` claim, when present, must
be a string. -/
def joseValidateJti (claims : ClaimSet) : Option JoseError :=
  match lookupClaim claims "jti" with
  | none => none
  | some (.str _) => none
  | some _ => some (.jwtError "JWT ID must be a string.")

/-- Model of python-jose `_validate_at_hash` with no access token supplied
(the repository never passes one): an `at_hash` claim cannot be checked and
raises. -/
def joseValidateAtHash (claims : ClaimSet) : Option JoseError :=
  match lookupClaim claims "at_hash" with
  | none => none
  | some _ => some (.jwtError "No access_token provided to compare against at_hash claim.")

/-- Model of the external `jose.jwt.decode(token, key, algorithms=[RS256],
audience=..., issuer=..., options={verify_signature/aud/iat/exp/iss: True})`
call in `auth_utils.py`.  Order follows the library: structural
parse / signature verification first (a `JWSError` is re-raised as a
`JWTError` with the same message), then `_validate_claims` runs
`iat`, `nbf`, `exp`, `aud`, `iss`, `sub`, `jti`, `at_hash` in that order
(default options keep every `verify_*` on and every `require_*` off);
on success the full decoded payload is returned. -/
def joseDecode (tok : Token) (key audience issuer : String) (now : Int) :
    Except JoseError ClaimSet :=
  if ¬ tok.wellFormed then .error (.jwtError "Not enough segments")
  else if tok.sigKey ≠ key then .error (.jwtError "Signature verification failed.")
  else
    match (joseValidateIat tok.claims).orElse (fun _ =>
          (joseValidateNbf tok.claims now).orElse (fun _ =>
          (joseValidateExp tok.claims now).orElse (fun _ =>
          (joseValidateAud tok.claims audience).orElse (fun _ =>
          (joseValidateIss tok.claims issuer).orElse (fun _ =>
          (joseValidateSub tok.claims).orElse (fun _ =>
          (joseValidateJti tok.claims).orElse (fun _ =>
          joseValidateAtHash tok.claims))))))) with
    | some e => .error e
    | none => .ok tok.claims

/-- Environment-sourced trust configuration as read by
`validate_fusionauth_jwt` via `os.environ.get`: `none` models an absent
variable, `some ""` an empty one. -/
structure Env where
  issuer : Option String
  clientId : Option String
  publicKey : Option String

/-- Python falsiness of an `os.environ.get` result: `not v` is true for
both `None` and the empty string. -/
def blankVar : Option String → Bool
  | none => true
  | some s => s = ""

/-- The failure classifications that `validate_fusionauth_jwt` actually
produces, one per `raise PermissionDenied` site in `auth_utils.py`:
the up-front configuration check, the `except ExpiredSignatureError`
branch, and the catch-all `except JWTError` branch (which stores
`str(e)`). -/
inductive VerifyFailure where
  | configurationMissing : VerifyFailure
  | expired : VerifyFailure
  | invalidToken (joseMsg : String) : VerifyFailure
deriving Repr, DecidableEq

/-- Message carried by the `PermissionDenied` exception for each failure. -/
def failureMessage : VerifyFailure → String
  | .configurationMissing => "FusionAuth configuration missing."
  | .expired => "Token has expired."
  | .invalidToken m => "Invalid token: " ++ m

/-- The configuration check at the top of `validate_fusionauth_jwt`
(`if not issuer or not client_id or not public_key`), which runs before
the token is touched. -/
def configMissing (env : Env) : Bool :=
  blankVar env.issuer || blankVar env.clientId || blankVar env.publicKey

/-- Coarse classification of a verifier outcome by which source branch
produced it.  `genericInvalid` is the catch-all `except JWTError` branch. -/
inductive CodeKind where
  | ok : CodeKind
  | configMissing : CodeKind
  | expiredKind : CodeKind
  | genericInvalid : CodeKind
deriving Repr, DecidableEq

/-- Which branch of `validate_fusionauth_jwt` an outcome came from. -/
def codeKind : Except VerifyFailure ClaimSet → CodeKind
  | .ok _ => .ok
  | .error .configurationMissing => .configMissing
  | .error .expired => .expiredKind
  | .error (.invalidToken _) => .genericInvalid

/-- Model of `auth_utils.validate_fusionauth_jwt`: reads the three
environment variables, fails closed when any is falsy, otherwise calls
`jose.jwt.decode` and converts its exceptions — `ExpiredSignatureError`
to "Token has expired.", any other `JWTError` to
"Invalid token: " + `str(e)`.  `tokenOf` maps a raw token string to its
abstract parsed view (the bridge to the external parser), and `now` is
the verification time `jose` reads from the clock. -/
def validate_fusionauth_jwt (tokenOf : String → Token) (env : Env) (now : Int)
    (token : String) : Except VerifyFailure ClaimSet :=
  if configMissing env then
    .error .configurationMissing
  else
    match joseDecode (tokenOf token) (env.publicKey.getD "") (env.clientId.getD "")
        (env.issuer.getD "") now with
    | .ok payload => .ok payload
    | .error (.expiredSignature _) => .error .expired
    | .error (.jwtError m) => .error (.invalidToken m)

/-- Python `s.startswith(pre)`: the first `len(pre)` characters of `s`
are exactly `pre`. -/
def pyStartswith (s pre : String) : Bool :=
  s.data.take pre.data.length = pre.data

/-- A Django `JsonResponse`: HTTP status plus JSON body. -/
structure Response where
  status : Nat
  body : Json
deriving Repr

/-- Body builder for the middleware's error responses:
`JsonResponse` with a single "error" field. -/
def errorBody (msg : String) : Json :=
  Json.obj [("error", Json.str msg)]

/-- An inbound Django request as the authentication layer sees it:
`path`, the `Authorization` header (`none` when absent, the
`request.META.get` default being `""`), the `jwt_claims` attribute the
middleware may set, and for the view endpoints the HTTP method, the
result of `json.loads(request.body.decode())` (`none` when it raises),
and the form data `request.POST`. -/
structure Request where
  path : String
  authorization : Option String
  jwt_claims : Option ClaimSet
  method : String
  bodyJson : Option Json
  postData : List (String × String)

/-- Core of the `re.match(r"^Bearer (.+)$", auth)` call in
`_extract_bearer_token`, over the header's character list: the anchored
literal `Bearer ` must prefix the string, `.+` captures one or more
non-newline characters, and `$` matches at the end or just before one
final newline. -/
def matchBearer (l : List Char) : Option (List Char) :=
  if l.take 7 = ['B', 'e', 'a', 'r', 'e', 'r', ' '] then
    let rest := l.drop 7
    let core := if rest.getLast? = some '\n' then rest.dropLast else rest
    if core = [] ∨ core.contains '\n' then none else some core
  else none

/-- Model of `jwt_middleware._extract_bearer_token`: the captured group of
`re.match(r"^Bearer (.+)$", auth)` on the `Authorization` header, or
`None` when the pattern does not match. -/
def extract_bearer_token (authorization : Option String) : Option String :=
  (matchBearer (authorization.getD "").data).map (fun cs => String.mk cs)

/-- Model of `FusionAuthJWTMiddleware.process_view`: returns the
short-circuit `JsonResponse` (`some r`) or `none` to let the request
proceed, together with the request as the view will see it (Python
mutates `request.jwt_claims` in place on success). -/
def process_view (tokenOf : String → Token) (env : Env) (now : Int)
    (req : Request) : Option Response × Request :=
  if ¬ pyStartswith req.path "/api/protected/" then (none, req)
  else
    match extract_bearer_token req.authorization with
    | none => (some ⟨401, errorBody "Missing or malformed Authorization token."⟩, req)
    | some token =>
      match validate_fusionauth_jwt tokenOf env now token with
      | .ok claims => (none, { req with jwt_claims := some claims })
      | .error exc => (some ⟨403, errorBody (failureMessage exc)⟩, req)

/-- Django's middleware dispatch around `process_view`: when it returns a
response, that response is final and the view never runs; when it returns
`None`, the (possibly mutated) request reaches the downstream view and
the view's response is returned unchanged. -/
def runMiddleware (tokenOf : String → Token) (env : Env) (now : Int)
    (handler : Request → Response) (req : Request) : Response :=
  match process_view tokenOf env now req with
  | (some resp, _) => resp
  | (none, req2) => handler req2

/-- Model of the `jwt_required` decorator's `_wrapped_view`: extract the
bearer token, answer 401 when there is none, validate it, answer 403 with
the exception's message on failure, otherwise set `request.jwt_claims`
and call the wrapped view. -/
def jwt_required (tokenOf : String → Token) (env : Env) (now : Int)
    (view_func : Request → Response) (req : Request) : Response :=
  match extract_bearer_token req.authorization with
  | none => ⟨401, errorBody "Missing or malformed Authorization token."⟩
  | some token =>
    match validate_fusionauth_jwt tokenOf env now token with
    | .ok claims => view_func { req with jwt_claims := some claims }
    | .error exc => ⟨403, errorBody (failureMessage exc)⟩

/-- Python falsiness of a JSON value (`if not token:` in the views). -/
def jsonFalsy : Json → Bool
  | .null => true
  | .bool b => ¬ b
  | .num n => n = 0
  | .str s => s = ""
  | .arr l => l.isEmpty
  | .obj l => l.isEmpty

/-- Python falsiness of a possibly-absent value. -/
def pyFalsy : Option Json → Bool
  | none => true
  | some j => jsonFalsy j

/-- The token-extraction block shared verbatim by `login_view` and
`validate_token_view` (views.py): `json.loads(request.body.decode())`
followed by `body.get("token")`, with `token = request.POST.get("token")`
as the `except Exception` fallback.  The fallback is reached both when
`json.loads` raises (`bodyJson = none`) and when the parsed value is not
a dict, since `.get` then raises `AttributeError` inside the same `try`. -/
def viewToken (req : Request) : Option Json :=
  match req.bodyJson with
  | some (Json.obj fields) => lookupClaim fields "token"
  | _ => ((req.postData.find? (fun p => p.1 = "token")).map Prod.snd).map Json.str

/-- Outcome of running a view: an HTTP response, or an uncaught Python
exception (a non-string token reaching `jwt.decode` raises an
`AttributeError` that no `except` clause in the repository catches). -/
inductive ViewResult where
  | response (r : Response) : ViewResult
  | uncaught : ViewResult
deriving Repr

/-- Model of `views.login_view`: POST only; token from JSON body with form
fallback; 400 when the token is falsy; otherwise validate and answer
200 with the claims or 403 with the `PermissionDenied` message. -/
def login_view (tokenOf : String → Token) (env : Env) (now : Int)
    (req : Request) : ViewResult :=
  if req.method ≠ "POST" then .response ⟨405, errorBody "Only POST is allowed."⟩
  else
    let token := viewToken req
    if pyFalsy token then .response ⟨400, errorBody "Missing token."⟩
    else
      match token with
      | some (Json.str s) =>
        match validate_fusionauth_jwt tokenOf env now s with
        | .ok claims =>
          .response ⟨200, Json.obj [("success", Json.bool true), ("claims", Json.obj claims)]⟩
        | .error exc => .response ⟨403, errorBody (failureMessage exc)⟩
      | _ =>
        if configMissing env then .response ⟨403, errorBody "FusionAuth configuration missing."⟩
        else .uncaught

/-- Model of `views.validate_token_view`: identical control flow to
`login_view` with different success / failure body shapes. -/
def validate_token_view (tokenOf : String → Token) (env : Env) (now : Int)
    (req : Request) : ViewResult :=
  if req.method ≠ "POST" then .response ⟨405, errorBody "Only POST is allowed."⟩
  else
    let token := viewToken req
    if pyFalsy token then .response ⟨400, errorBody "Missing token."⟩
    else
      match token with
      | some (Json.str s) =>
        match validate_fusionauth_jwt tokenOf env now s with
        | .ok claims =>
          .response ⟨200, Json.obj [("valid", Json.bool true), ("claims", Json.obj claims)]⟩
        | .error exc =>
          .response ⟨403, Json.obj [("valid", Json.bool false), ("error", Json.str (failureMessage exc))]⟩
      | _ =>
        if configMissing env then
          .response ⟨403, Json.obj [("valid", Json.bool false), ("error", Json.str "FusionAuth configuration missing.")]⟩
        else .uncaught

/-- A fully populated trust configuration used for concrete checks. -/
def envOk : Env := ⟨some "https://fa.example", some "client-1", some "pem-key-1"⟩

/-- Claims of a token that passes every check at time 1000. -/
def goodClaims : ClaimSet :=
  [("iss", Json.str "https://fa.example"), ("aud", Json.str "client-1"),
   ("exp", Json.num 2000), ("sub", Json.str "user-7")]

/-- Claims identical to `goodClaims` except for an `exp` in the past. -/
def expiredClaims : ClaimSet :=
  [("iss", Json.str "https://fa.example"), ("aud", Json.str "client-1"),
   ("exp", Json.num 500), ("sub", Json.str "user-7")]

/-- Claims identical to `goodClaims` except for a mismatched audience. -/
def badAudClaims : ClaimSet :=
  [("iss", Json.str "https://fa.example"), ("aud", Json.str "other-app"),
   ("exp", Json.num 2000), ("sub", Json.str "user-7")]

/-- Claims identical to `goodClaims` except for a non-string `sub`, a
library-level failure that no spec-level kind singles out. -/
def badSubClaims : ClaimSet :=
  [("iss", Json.str "https://fa.example"), ("aud", Json.str "client-1"),
   ("exp", Json.num 2000), ("sub", Json.num 7)]

/-- A concrete token universe: a few named token strings and the abstract
tokens they parse to; everything else is structurally malformed. -/
def sampleTokens : String → Token := fun s =>
  if s = "tok-good" then ⟨true, "pem-key-1", goodClaims⟩
  else if s = "tok-expired" then ⟨true, "pem-key-1", expiredClaims⟩
  else if s = "tok-badsig" then ⟨true, "other-key", goodClaims⟩
  else if s = "tok-badaud" then ⟨true, "pem-key-1", badAudClaims⟩
  else if s = "tok-badsub" then ⟨true, "pem-key-1", badSubClaims⟩
  else ⟨false, "", []⟩

example : validate_fusionauth_jwt sampleTokens envOk 1000 "tok-good" = .ok goodClaims := rfl
example : validate_fusionauth_jwt sampleTokens envOk 1000 "tok-expired" = .error .expired := rfl
example : validate_fusionauth_jwt sampleTokens envOk 1000 "tok-badsig" =
    .error (.invalidToken "Signature verification failed.") := rfl
example : validate_fusionauth_jwt sampleTokens envOk 1000 "tok-badaud" =
    .error (.invalidToken "Invalid audience") := rfl
example : validate_fusionauth_jwt sampleTokens envOk 1000 "tok-badsub" =
    .error (.invalidToken "Subject must be a string.") := rfl
example : extract_bearer_token (some "Bearer tok-good") = some "tok-good" := rfl
example : extract_bearer_token (some "Basic xyz") = none := rfl
example : extract_bearer_token (some "Bearer ") = none := rfl
example : extract_bearer_token none = none := rfl
example : pyStartswith "/api/protected/data" "/api/protected/" = true := rfl
example : pyStartswith "/api/auth/login/" "/api/protected/" = false := rfl

/-- C1: if any of the three trust-configuration values is empty or absent,
`validate_fusionauth_jwt` fails with the configuration-missing
classification for every input token, every clock value and every token
universe — the check precedes any use of the token, so the outcome is
independent of the token's content. -/
theorem validate_config_missing_decides_all_tokens (env : Env)
    (h : (env.issuer = none ∨ env.issuer = some "") ∨
         (env.clientId = none ∨ env.clientId = some "") ∨
         (env.publicKey = none ∨ env.publicKey = some "")) :
    ∀ (tokenOf : String → Token) (now : Int) (token : String),
      validate_fusionauth_jwt tokenOf env now token = .error .configurationMissing := by
  intro tokenOf now token
  have hb : configMissing env = true := by
    rcases h with (h | h) | (h | h) | (h | h) <;>
      simp [configMissing, blankVar, h]
  simp [validate_fusionauth_jwt, hb]

/-- Witness for C1 at a concrete configuration with an absent issuer. -/
theorem validate_config_missing_decides_all_tokens_witness :
    validate_fusionauth_jwt sampleTokens ⟨none, some "client-1", some "pem-key-1"⟩ 1000
      "tok-good" = .error .configurationMissing :=
  validate_config_missing_decides_all_tokens ⟨none, some "client-1", some "pem-key-1"⟩
    (Or.inl (Or.inl rfl)) sampleTokens 1000 "tok-good"

/-- C2: on a protected path, when the Authorization header yields a bearer
token the Verifier accepts, the middleware attaches the full decoded claim
set to the request under `jwt_claims`, lets the downstream handler run on
that request, and returns the handler's response unchanged. -/
theorem middleware_valid_token_attaches_claims
    (tokenOf : String → Token) (env : Env) (now : Int)
    (handler : Request → Response) (req : Request) (token : String) (claims : ClaimSet)
    (hpath : pyStartswith req.path "/api/protected/" = true)
    (htok : extract_bearer_token req.authorization = some token)
    (hval : validate_fusionauth_jwt tokenOf env now token = .ok claims) :
    runMiddleware tokenOf env now handler req =
      handler { req with jwt_claims := some claims } := by
  simp [runMiddleware, process_view, hpath, htok, hval]

/-- A downstream handler that reads the attached claims, making their
accessibility observable in the response. -/
def echoHandler : Request → Response :=
  fun r => ⟨200, Json.obj [("claims", Json.obj (r.jwt_claims.getD []))]⟩

/-- A request to a protected path carrying a valid bearer token. -/
def reqGood : Request :=
  ⟨"/api/protected/data", some "Bearer tok-good", none, "GET", none, []⟩

/-- Witness for C2 on a concrete valid request. -/
theorem middleware_valid_token_attaches_claims_witness :
    runMiddleware sampleTokens envOk 1000 echoHandler reqGood =
      echoHandler { reqGood with jwt_claims := some goodClaims } :=
  middleware_valid_token_attaches_claims sampleTokens envOk 1000 echoHandler reqGood
    "tok-good" goodClaims rfl rfl rfl

/-- C3: a token whose `exp` lies in the past, all earlier checks passing,
is classified by the dedicated expired branch (`except
ExpiredSignatureError`), a classification distinct from the
configuration-missing and generic catch-all classifications. -/
theorem validate_expired_distinct
    (tokenOf : String → Token) (env : Env) (now : Int) (token : String)
    (v : Json) (e : Int)
    (hconf : configMissing env = false)
    (hwf : (tokenOf token).wellFormed = true)
    (hsig : (tokenOf token).sigKey = env.publicKey.getD "")
    (hiat : joseValidateIat (tokenOf token).claims = none)
    (hnbf : joseValidateNbf (tokenOf token).claims now = none)
    (hexp : lookupClaim (tokenOf token).claims "exp" = some v)
    (hv : intOf v = some e)
    (he : e < now) :
    validate_fusionauth_jwt tokenOf env now token = .error .expired ∧
    VerifyFailure.expired ≠ .configurationMissing ∧
    ∀ m, VerifyFailure.expired ≠ .invalidToken m := by
  refine ⟨?_, fun h => VerifyFailure.noConfusion h,
    fun m h => VerifyFailure.noConfusion h⟩
  have hexp2 : joseValidateExp (tokenOf token).claims now =
      some (.expiredSignature "Signature has expired.") := by
    simp [joseValidateExp, hexp, hv, he]
  simp [validate_fusionauth_jwt, hconf, joseDecode, hwf, hsig, hiat, hnbf, hexp2,
    Option.orElse]

/-- Witness for C3 on a concrete expired token. -/
theorem validate_expired_distinct_witness :
    validate_fusionauth_jwt sampleTokens envOk 1000 "tok-expired" = .error .expired :=
  (validate_expired_distinct sampleTokens envOk 1000 "tok-expired" (Json.num 500) 500
    rfl rfl rfl rfl rfl rfl rfl (by decide)).1

/-- Counterexample to C4: a well-formed token signed by a different key is
classified by the generic catch-all branch (`except JWTError`), the very
same classification a non-signature library failure (a non-string `sub`)
receives — there is no SignatureInvalid classification distinct from the
generic one. -/
theorem signature_failure_in_generic_branch_cex :
    validate_fusionauth_jwt sampleTokens envOk 1000 "tok-badsig" =
      .error (.invalidToken "Signature verification failed.") ∧
    codeKind (validate_fusionauth_jwt sampleTokens envOk 1000 "tok-badsig") =
      .genericInvalid ∧
    codeKind (validate_fusionauth_jwt sampleTokens envOk 1000 "tok-badsub") =
      .genericInvalid :=
  ⟨rfl, rfl, rfl⟩

/-- C4 (amended): a well-formed token signed by a key other than the
configured public key makes the Verifier fail through the generic
catch-all classification, with the signature-specific text
"Signature verification failed." preserved only in the message. -/
theorem signature_failure_generic_message
    (tokenOf : String → Token) (env : Env) (now : Int) (token : String)
    (hconf : configMissing env = false)
    (hwf : (tokenOf token).wellFormed = true)
    (hsig : (tokenOf token).sigKey ≠ env.publicKey.getD "") :
    validate_fusionauth_jwt tokenOf env now token =
      .error (.invalidToken "Signature verification failed.") ∧
    codeKind (validate_fusionauth_jwt tokenOf env now token) = .genericInvalid := by
  have h1 : validate_fusionauth_jwt tokenOf env now token =
      .error (.invalidToken "Signature verification failed.") := by
    simp [validate_fusionauth_jwt, hconf, joseDecode, hwf, hsig]
  exact ⟨h1, by rw [h1]; rfl⟩

/-- Witness for the amended C4 on a concrete wrong-key token. -/
theorem signature_failure_generic_message_witness :
    validate_fusionauth_jwt sampleTokens envOk 1000 "tok-badsig" =
      .error (.invalidToken "Signature verification failed.") :=
  (signature_failure_generic_message sampleTokens envOk 1000 "tok-badsig"
    rfl rfl (by decide)).1

/-- Counterexample to C5: a validly signed token whose `aud` differs from
the configured audience is classified by the generic catch-all branch,
the same classification as an unrelated library failure — no
InvalidClaim classification distinct from the generic one exists. -/
theorem audience_failure_in_generic_branch_cex :
    validate_fusionauth_jwt sampleTokens envOk 1000 "tok-badaud" =
      .error (.invalidToken "Invalid audience") ∧
    codeKind (validate_fusionauth_jwt sampleTokens envOk 1000 "tok-badaud") =
      .genericInvalid ∧
    codeKind (validate_fusionauth_jwt sampleTokens envOk 1000 "tok-badsub") ≠
      .expiredKind :=
  ⟨rfl, rfl, by decide⟩

/-- C5 (amended): an audience mismatch is reported through the generic
catch-all classification — with message "Invalid audience" when the
signature is valid and the temporal checks pass; and when the signature
is invalid the outcome is the same generic classification (carrying the
signature message instead), so no audience-specific classification is
ever produced. -/
theorem audience_mismatch_generic_message
    (tokenOf : String → Token) (env : Env) (now : Int) (token : String) (a : String)
    (hconf : configMissing env = false)
    (hwf : (tokenOf token).wellFormed = true)
    (hsig : (tokenOf token).sigKey = env.publicKey.getD "")
    (hiat : joseValidateIat (tokenOf token).claims = none)
    (hnbf : joseValidateNbf (tokenOf token).claims now = none)
    (hexp : joseValidateExp (tokenOf token).claims now = none)
    (haud : lookupClaim (tokenOf token).claims "aud" = some (Json.str a))
    (hne : a ≠ env.clientId.getD "") :
    (validate_fusionauth_jwt tokenOf env now token =
      .error (.invalidToken "Invalid audience") ∧
     codeKind (validate_fusionauth_jwt tokenOf env now token) = .genericInvalid) ∧
    ∀ token2 : String, (tokenOf token2).wellFormed = true →
      (tokenOf token2).sigKey ≠ env.publicKey.getD "" →
      codeKind (validate_fusionauth_jwt tokenOf env now token2) = .genericInvalid := by
  constructor
  · have haud2 : joseValidateAud (tokenOf token).claims (env.clientId.getD "") =
        some (.jwtError "Invalid audience") := by
      simp [joseValidateAud, haud, hne]
    have h1 : validate_fusionauth_jwt tokenOf env now token =
        .error (.invalidToken "Invalid audience") := by
      simp [validate_fusionauth_jwt, hconf, joseDecode, hwf, hsig, hiat, hnbf, hexp,
        haud2, Option.orElse]
    exact ⟨h1, by rw [h1]; rfl⟩
  · intro token2 hwf2 hsig2
    have h2 : validate_fusionauth_jwt tokenOf env now token2 =
        .error (.invalidToken "Signature verification failed.") := by
      simp [validate_fusionauth_jwt, hconf, joseDecode, hwf2, hsig2]
    rw [h2]; rfl

/-- Witness for the amended C5 on a concrete audience-mismatch token and a
concrete wrong-key token. -/
theorem audience_mismatch_generic_message_witness :
    validate_fusionauth_jwt sampleTokens envOk 1000 "tok-badaud" =
      .error (.invalidToken "Invalid audience") ∧
    codeKind (validate_fusionauth_jwt sampleTokens envOk 1000 "tok-badsig") =
      .genericInvalid :=
  ⟨(audience_mismatch_generic_message sampleTokens envOk 1000 "tok-badaud" "other-app"
      rfl rfl rfl rfl rfl rfl rfl (by decide)).1.1,
   (audience_mismatch_generic_message sampleTokens envOk 1000 "tok-badaud" "other-app"
      rfl rfl rfl rfl rfl rfl rfl (by decide)).2 "tok-badsig" rfl (by decide)⟩

/-- C6: on a protected path, when the Authorization header (empty when
absent) is not of the form `Bearer <token>` with a nonempty token, the
middleware answers 401 with the fixed error body, whatever the downstream
handler is — the handler is never invoked. -/
theorem middleware_no_bearer_401
    (tokenOf : String → Token) (env : Env) (now : Int) (req : Request)
    (hpath : pyStartswith req.path "/api/protected/" = true)
    (hnb : ∀ t : String, t ≠ "" → req.authorization.getD "" ≠ "Bearer " ++ t) :
    ∀ handler, runMiddleware tokenOf env now handler req =
      ⟨401, errorBody "Missing or malformed Authorization token."⟩ := by
  have hm : matchBearer (req.authorization.getD "").data = none := by
    unfold matchBearer
    by_cases htake : (req.authorization.getD "").data.take 7 =
        ['B', 'e', 'a', 'r', 'e', 'r', ' ']
    · rw [if_pos htake]
      rcases hd : (req.authorization.getD "").data.drop 7 with _ | ⟨c, cs⟩
      · simp [hd]
      · exfalso
        have h1 : (req.authorization.getD "").data =
            ['B', 'e', 'a', 'r', 'e', 'r', ' '] ++
              (req.authorization.getD "").data.drop 7 := by
          conv_lhs => rw [← List.take_append_drop 7 (req.authorization.getD "").data]
          rw [htake]
        have heq : req.authorization.getD "" =
            "Bearer " ++ String.mk ((req.authorization.getD "").data.drop 7) := by
          conv_lhs => rw [show req.authorization.getD "" =
            String.mk (req.authorization.getD "").data from rfl, h1]
          rfl
        have hne : String.mk ((req.authorization.getD "").data.drop 7) ≠ "" := by
          rw [hd]
          intro hcon
          exact List.noConfusion (congrArg String.data hcon)
        exact hnb _ hne heq
    · rw [if_neg htake]
  have hex : extract_bearer_token req.authorization = none := by
    simp [extract_bearer_token, hm]
  intro handler
  simp [runMiddleware, process_view, hpath, hex]

/-- A protected-path request presenting the wrong authorization scheme. -/
def reqWrongScheme : Request :=
  ⟨"/api/protected/x", some "Basic xyz", none, "GET", none, []⟩

/-- Witness for C6 on a concrete `Basic` header. -/
theorem middleware_no_bearer_401_witness :
    runMiddleware sampleTokens envOk 1000 echoHandler reqWrongScheme =
      ⟨401, errorBody "Missing or malformed Authorization token."⟩ :=
  middleware_no_bearer_401 sampleTokens envOk 1000 reqWrongScheme rfl
    (by
      intro t ht hcon
      have h3 : ('B' :: 'a' :: 's' :: 'i' :: 'c' :: ' ' :: 'x' :: 'y' :: 'z' ::
            ([] : List Char)) =
          ('B' :: 'e' :: 'a' :: 'r' :: 'e' :: 'r' :: ' ' :: t.data) :=
        congrArg String.data hcon
      injection h3 with h4 h5
      injection h5 with h6 h7
      exact absurd h6 (by decide))
    echoHandler

/-- C7: on a protected path, a bearer token that the Verifier rejects makes
the middleware answer 403 with the failure's message in the error body,
whatever the downstream handler is, and that response differs from the
401 used when no parseable credential is presented. -/
theorem middleware_rejected_token_403
    (tokenOf : String → Token) (env : Env) (now : Int) (req : Request)
    (token : String) (exc : VerifyFailure)
    (hpath : pyStartswith req.path "/api/protected/" = true)
    (htok : extract_bearer_token req.authorization = some token)
    (hval : validate_fusionauth_jwt tokenOf env now token = .error exc) :
    (∀ handler, runMiddleware tokenOf env now handler req =
      ⟨403, errorBody (failureMessage exc)⟩) ∧
    (⟨403, errorBody (failureMessage exc)⟩ : Response) ≠
      ⟨401, errorBody "Missing or malformed Authorization token."⟩ := by
  constructor
  · intro handler
    simp [runMiddleware, process_view, hpath, htok, hval]
  · intro hcon
    have h2 : (403 : Nat) = 401 := congrArg Response.status hcon
    exact absurd h2 (by decide)

/-- A protected-path request presenting an expired bearer token. -/
def reqExpired : Request :=
  ⟨"/api/protected/x", some "Bearer tok-expired", none, "GET", none, []⟩

/-- Witness for C7 on a concrete expired-token request. -/
theorem middleware_rejected_token_403_witness :
    runMiddleware sampleTokens envOk 1000 echoHandler reqExpired =
      ⟨403, errorBody (failureMessage .expired)⟩ ∧
    (⟨403, errorBody (failureMessage .expired)⟩ : Response) ≠
      ⟨401, errorBody "Missing or malformed Authorization token."⟩ :=
  ⟨(middleware_rejected_token_403 sampleTokens envOk 1000 reqExpired "tok-expired"
      .expired rfl rfl rfl).1 echoHandler,
   (middleware_rejected_token_403 sampleTokens envOk 1000 reqExpired "tok-expired"
      .expired rfl rfl rfl).2⟩

/-- C8: a request whose path is outside the protected prefix passes through
the middleware untouched to the downstream handler, for every
configuration, clock, token universe and handler — no verification is
performed and the header is irrelevant. -/
theorem middleware_unprotected_passthrough (req : Request)
    (hpath : pyStartswith req.path "/api/protected/" = false) :
    ∀ (tokenOf : String → Token) (env : Env) (now : Int)
      (handler : Request → Response),
      runMiddleware tokenOf env now handler req = handler req := by
  intro tokenOf env now handler
  simp [runMiddleware, process_view, hpath]

/-- An unprotected-path request carrying an (irrelevant) bearer header. -/
def reqUnprotected : Request :=
  ⟨"/api/auth/login/", some "Bearer garbage", none, "GET", none, []⟩

/-- Witness for C8 on a concrete unprotected request. -/
theorem middleware_unprotected_passthrough_witness :
    runMiddleware sampleTokens envOk 1000 echoHandler reqUnprotected =
      echoHandler reqUnprotected :=
  middleware_unprotected_passthrough reqUnprotected rfl sampleTokens envOk 1000
    echoHandler

/-- C9: on any protected-prefix request, the decorator form produces
exactly the outcome the pipeline middleware produces for the same
request under the same configuration — same 401, same 403, or same
invocation of the handler with claims attached. -/
theorem decorator_matches_middleware
    (tokenOf : String → Token) (env : Env) (now : Int)
    (view_func : Request → Response) (req : Request)
    (hpath : pyStartswith req.path "/api/protected/" = true) :
    jwt_required tokenOf env now view_func req =
      runMiddleware tokenOf env now view_func req := by
  cases hex : extract_bearer_token req.authorization with
  | none => simp [jwt_required, runMiddleware, process_view, hpath, hex]
  | some token =>
    cases hval : validate_fusionauth_jwt tokenOf env now token with
    | ok claims => simp [jwt_required, runMiddleware, process_view, hpath, hex, hval]
    | error exc => simp [jwt_required, runMiddleware, process_view, hpath, hex, hval]

/-- Witness for C9 on a concrete protected request with a valid token. -/
theorem decorator_matches_middleware_witness :
    jwt_required sampleTokens envOk 1000 echoHandler reqGood =
      runMiddleware sampleTokens envOk 1000 echoHandler reqGood :=
  decorator_matches_middleware sampleTokens envOk 1000 echoHandler reqGood rfl

/-- A POST whose body is the JSON array `[]` (parses fine, no "token"
field) while the form data does carry a token. -/
def reqArrayBody : Request :=
  ⟨"/api/auth/login/", none, none, "POST", some (Json.arr []), [("token", "tok-good")]⟩

/-- Counterexample to C10: on a body that parses successfully as JSON but
is not an object, `body.get` raises inside the same `try`, so the form
fallback IS consulted — here it supplies a valid token and the endpoint
answers 200, not the claimed 400. -/
theorem login_fallback_on_nonobject_json_cex :
    login_view sampleTokens envOk 1000 reqArrayBody =
      .response ⟨200, Json.obj [("success", Json.bool true),
        ("claims", Json.obj goodClaims)]⟩ ∧
    login_view sampleTokens envOk 1000 reqArrayBody ≠
      .response ⟨400, errorBody "Missing token."⟩ := by
  constructor
  · rfl
  · intro h
    have h2 : ViewResult.response ⟨200, Json.obj [("success", Json.bool true),
          ("claims", Json.obj goodClaims)]⟩ =
        .response ⟨400, errorBody "Missing token."⟩ :=
      (show login_view sampleTokens envOk 1000 reqArrayBody =
        .response ⟨200, Json.obj [("success", Json.bool true),
          ("claims", Json.obj goodClaims)]⟩ from rfl).symm.trans h
    have h3 : (200 : Nat) = 400 :=
      congrArg (fun vr => match vr with
        | ViewResult.response r => r.status
        | ViewResult.uncaught => 0) h2
    exact absurd h3 (by decide)

/-- C10 (amended): when the body parses as a JSON object with a missing or
falsy "token" field, both endpoints answer 400 "Missing token." whatever
the form data holds (the fallback is not consulted); the form fallback is
consulted exactly when JSON parsing raises or the parsed value is not an
object (where `.get` raises `AttributeError` inside the same `try`). -/
theorem token_extraction_amended :
    (∀ (tokenOf : String → Token) (env : Env) (now : Int) (req : Request)
       (fields : ClaimSet),
       req.method = "POST" → req.bodyJson = some (Json.obj fields) →
       pyFalsy (lookupClaim fields "token") = true →
       ∀ post : List (String × String),
         login_view tokenOf env now { req with postData := post } =
           .response ⟨400, errorBody "Missing token."⟩) ∧
    (∀ (tokenOf : String → Token) (env : Env) (now : Int) (req : Request)
       (fields : ClaimSet),
       req.method = "POST" → req.bodyJson = some (Json.obj fields) →
       pyFalsy (lookupClaim fields "token") = true →
       ∀ post : List (String × String),
         validate_token_view tokenOf env now { req with postData := post } =
           .response ⟨400, errorBody "Missing token."⟩) ∧
    (∀ req : Request,
       (req.bodyJson = none ∨
        ∃ j, req.bodyJson = some j ∧ ∀ fields, j ≠ Json.obj fields) →
       viewToken req =
         ((req.postData.find? (fun p => p.1 = "token")).map Prod.snd).map Json.str) := by
  refine ⟨?_, ?_, ?_⟩
  · intro tokenOf env now req fields hmethod hbody hfalsy post
    simp [login_view, viewToken, hmethod, hbody, hfalsy]
  · intro tokenOf env now req fields hmethod hbody hfalsy post
    simp [validate_token_view, viewToken, hmethod, hbody, hfalsy]
  · intro req h
    rcases h with hnone | ⟨j, hj, hne⟩
    · simp [viewToken, hnone]
    · cases j with
      | obj fields => exact absurd rfl (hne fields)
      | null => simp [viewToken, hj]
      | bool b => simp [viewToken, hj]
      | num n => simp [viewToken, hj]
      | str s => simp [viewToken, hj]
      | arr l => simp [viewToken, hj]

/-- A POST whose body is a JSON object without a "token" field. -/
def reqObjNoToken : Request :=
  ⟨"/api/auth/login/", none, none, "POST", some (Json.obj [("x", Json.num 1)]), []⟩

/-- Witness for the amended C10: concrete object-body requests answer 400
even with a token in the form data, and a concrete array-body request
reads the token from the form fallback. -/
theorem token_extraction_amended_witness :
    login_view sampleTokens envOk 1000
      { reqObjNoToken with postData := [("token", "tok-good")] } =
      .response ⟨400, errorBody "Missing token."⟩ ∧
    validate_token_view sampleTokens envOk 1000
      { reqObjNoToken with postData := [("token", "tok-good")] } =
      .response ⟨400, errorBody "Missing token."⟩ ∧
    viewToken reqArrayBody = some (Json.str "tok-good") :=
  ⟨token_extraction_amended.1 sampleTokens envOk 1000 reqObjNoToken
      [("x", Json.num 1)] rfl rfl rfl [("token", "tok-good")],
   token_extraction_amended.2.1 sampleTokens envOk 1000 reqObjNoToken
      [("x", Json.num 1)] rfl rfl rfl [("token", "tok-good")],
   (token_extraction_amended.2.2 reqArrayBody
      (Or.inr ⟨Json.arr [], rfl, fun _ hcon => Json.noConfusion hcon⟩)).trans rfl⟩
